import Mathlib

/-!
Shallow embedding of the librosco MEMS communication library
(src/protocol.c, src/setup.c, headers memsinjection.h / rosco.h).

The serial transport is modelled by two oracle scripts stored in the
connection record: `writeResults` lists the successive return values of
the OS write call, and `readResults` lists the successive outcomes of
the OS read call (`none` models a read returning -1; `some bs` models a
read that returned the bytes `bs`).  Quantifying theorems over all
scripts quantifies over all transport behaviours.  Bytes are `Nat`
values (the device delivers octets, so the interesting inputs are
below 256).  The mutex is modelled by a `locked` flag together with
ghost counters `locks` / `unlocks` counting the lock and unlock calls,
so that lock-balance claims can be stated exactly.
-/

namespace Librosco

/-- Outcome of one OS read call: `none` models `read` returning -1,
`some bs` models a successful read that delivered the bytes `bs`
(possibly empty, as with a timeout under VMIN=0/VTIME). -/
abbrev ReadRes := Option (List Nat)

/-- The `mems_info` connection record (memsinjection.h), extended with the
transport oracle scripts and ghost lock counters.  `sd` is the POSIX file
descriptor; the POSIX branch of the source is the one embedded throughout. -/
structure MemsInfo where
  sd : Int
  locked : Bool
  locks : Nat
  unlocks : Nat
  writeResults : List Int
  readResults : List ReadRes
deriving DecidableEq

/-- mems_is_connected (setup.c): the POSIX branch tests `sd > 0`. -/
def mems_is_connected (info : MemsInfo) : Bool :=
  decide (0 < info.sd)

/-- The read-until-satisfied do/while loop of mems_read_serial
(protocol.c lines 38-53).  Arguments: remaining oracle script, running
`totalBytesRead`, bytes accumulated in the caller buffer so far.  Returns
the final `totalBytesRead`, the accumulated bytes and the rest of the
script.  An exhausted script behaves like a read that returns 0 bytes
(the VMIN=0/VTIME timeout case), which exits the loop. -/
def read_loop (quantity : Int) : List ReadRes → Int → List Nat → Int × List Nat × List ReadRes
  | [], total, acc => (total, acc, [])
  | none :: rest, total, acc =>
      -- read returned -1: totalBytesRead += -1 and the loop exits
      (total - 1, acc, rest)
  | some bs :: rest, total, acc =>
      let bytesRead : Int := bs.length
      let total2 := total + bytesRead
      let acc2 := acc ++ bs
      if 0 < bytesRead ∧ total2 < quantity then
        read_loop quantity rest total2 acc2
      else
        (total2, acc2, rest)

/-- mems_read_serial (protocol.c): returns `totalBytesRead`, the bytes
placed in the caller buffer, and the updated connection record. -/
def mems_read_serial (info : MemsInfo) (quantity : Int) : Int × List Nat × MemsInfo :=
  if mems_is_connected info then
    match read_loop quantity info.readResults 0 [] with
    | (total, data, rest) => (total, data, { info with readResults := rest })
  else
    (0, [], info)

/-- mems_write_serial (protocol.c): `bytesWritten` starts at -1 and is
replaced by the OS write result only when the device is connected. -/
def mems_write_serial (info : MemsInfo) (quantity : Int) : Int × MemsInfo :=
  if mems_is_connected info then
    match info.writeResults with
    | [] => (-1, info)
    | w :: rest => (w, { info with writeResults := rest })
  else
    (-1, info)

/-- mems_lock (protocol.c): the POSIX branch calls pthread_mutex_lock and
always returns true.  The ghost counter `locks` records the call. -/
def mems_lock (info : MemsInfo) : Bool × MemsInfo :=
  (true, { info with locked := true, locks := info.locks + 1 })

/-- mems_unlock (protocol.c): pthread_mutex_unlock; ghost counter
`unlocks` records the call. -/
def mems_unlock (info : MemsInfo) : MemsInfo :=
  { info with locked := false, unlocks := info.unlocks + 1 }

/-- mems_send_command (protocol.c lines 95-124): write the command byte,
read one echo byte into a buffer initialised to 0xFF, succeed only when
exactly one byte was written, exactly one byte was read, and the echo
equals the command. -/
def mems_send_command (info : MemsInfo) (cmd : Nat) : Bool × MemsInfo :=
  match mems_write_serial info 1 with
  | (w, info1) =>
    if w = 1 then
      match mems_read_serial info1 1 with
      | (r, data, info2) =>
        if r = 1 then
          (decide (data.headD 0xFF = cmd), info2)
        else
          (false, info2)
    else
      (false, info1)

/-- Command byte MEMS_ReqData = 0x80 (memsinjection.h). -/
def MEMS_ReqData : Nat := 0x80

/-- Command byte MEMS_ClearFaults = 0xCC (memsinjection.h). -/
def MEMS_ClearFaults : Nat := 0xCC

/-- Command byte MEMS_Heartbeat = 0xF4 (memsinjection.h). -/
def MEMS_Heartbeat : Nat := 0xF4

/-- Command byte MEMS_GetIACPosition = 0xFB (memsinjection.h). -/
def MEMS_GetIACPosition : Nat := 0xFB

/-- Command byte MEMS_FuelPumpOn = 0x11 (memsinjection.h). -/
def MEMS_FuelPumpOn : Nat := 0x11

/-- Command byte MEMS_FuelPumpOff = 0x01 (memsinjection.h). -/
def MEMS_FuelPumpOff : Nat := 0x01

/-- Command byte MEMS_PTCRelayOn = 0x12 (memsinjection.h). -/
def MEMS_PTCRelayOn : Nat := 0x12

/-- Command byte MEMS_PTCRelayOff = 0x02 (memsinjection.h). -/
def MEMS_PTCRelayOff : Nat := 0x02

/-- Command byte MEMS_ACRelayOn = 0x13 (memsinjection.h). -/
def MEMS_ACRelayOn : Nat := 0x13

/-- Command byte MEMS_ACRelayOff = 0x03 (memsinjection.h). -/
def MEMS_ACRelayOff : Nat := 0x03

/-- Command byte MEMS_TestInjectors = 0xF7 (memsinjection.h). -/
def MEMS_TestInjectors : Nat := 0xF7

/-- Command byte MEMS_FireCoil = 0xF8 (memsinjection.h). -/
def MEMS_FireCoil : Nat := 0xF8

/-- Command byte MEMS_OpenIAC = 0xFD (memsinjection.h). -/
def MEMS_OpenIAC : Nat := 0xFD

/-- Command byte MEMS_CloseIAC = 0xFE (memsinjection.h). -/
def MEMS_CloseIAC : Nat := 0xFE

/-- IAC_MAXIMUM = 0xB4 (memsinjection.h). -/
def IAC_MAXIMUM : Nat := 0xB4

/-- sizeof(mems_data_frame): the struct in memsinjection.h has 28 uint8
fields and no padding. -/
def frameSize : Nat := 28

/-- temperature_value_to_degrees_f (protocol.c lines 203-207).
The C code computes `uint8_t degrees_c = val - 55` (wrapping uint8
subtraction, modelled by `(val + 256 - 55) % 256`) and then
`(uint8_t)((float)degrees_c * 1.8 + 32)`.  The double closest to 1.8 is
slightly above 9/5 and the rounding error of `degrees_c * 1.8 + 32` is far
below the distance from the exact value `degrees_c * 9/5 + 32` to the next
integer (the exact value is a multiple of 1/5), so float truncation agrees
with the Nat floor division `degrees_c * 9 / 5 + 32`; the final cast to
uint8 reduces modulo 256. -/
def temperature_value_to_degrees_f (val : Nat) : Nat :=
  let degrees_c := (val + 256 - 55) % 256
  (degrees_c * 9 / 5 + 32) % 256

/-- kpa_to_psi (protocol.c lines 212-215): kpa / 6.89475729, modelled
exactly over the rationals. -/
def kpa_to_psi (kpa : Nat) : ℚ :=
  (kpa : ℚ) / (689475729 / 100000000)

/-- The `mems_data` output record (memsinjection.h lines 123-143).  The
voltage and pressure fields are C floats; they are modelled by the exact
rational value of the arithmetic the source performs (at the byte values
the spec tests, 140/10.0 and 50*0.02, the float computation is exact, so
the models agree with the source there).  The header names the pressure
field `map_kpa` while protocol.c assigns it as `map_psi` with a psi
value; the name used by the assigning code is kept. -/
structure MemsData where
  engine_rpm : Nat
  coolant_temp_f : Nat
  ambient_temp_f : Nat
  intake_air_temp_f : Nat
  fuel_temp_f : Nat
  map_psi : ℚ
  battery_voltage : ℚ
  throttle_pot_voltage : ℚ
  idle_switch : Nat
  park_neutral_switch : Nat
  fault_codes : Nat
  iac_position : Nat
deriving DecidableEq

/-- The field-assignment block of mems_read (protocol.c lines 261-283),
as a function of the raw frame bytes.  Frame offsets follow the
mems_data_frame struct: engine_rpm_hi=1, engine_rpm_lo=2, coolant_temp=3,
ambient_temp=4, intake_air_temp=5, fuel_temp=6, map_kpa=7,
battery_voltage=8, throttle_pot=9, idle_switch=10, park_neutral_switch=12,
dtc0=13, dtc1=14, iac_position=18.  Fields of `data` that the block does
not assign (only `fuel_temp_f`) keep their previous value. -/
def decode_frame (bs : List Nat) (data : MemsData) : MemsData :=
  let b := fun i => bs.getD i 0
  let dtc0 := b 13
  let dtc1 := b 14
  let fc0 : Nat := 0
  let fc1 := if dtc0 &&& 0x01 ≠ 0 then fc0 ||| (1 <<< 0) else fc0
  let fc2 := if dtc0 &&& 0x02 ≠ 0 then fc1 ||| (1 <<< 1) else fc1
  let fc3 := if dtc1 &&& 0x02 ≠ 0 then fc2 ||| (1 <<< 2) else fc2
  let fc4 := if dtc1 &&& 0x80 ≠ 0 then fc3 ||| (1 <<< 3) else fc3
  { data with
    engine_rpm := (b 1) <<< 8 ||| (b 2),
    coolant_temp_f := temperature_value_to_degrees_f (b 3),
    ambient_temp_f := temperature_value_to_degrees_f (b 4),
    intake_air_temp_f := temperature_value_to_degrees_f (b 5),
    map_psi := kpa_to_psi (b 7),
    battery_voltage := (b 8 : ℚ) / 10,
    throttle_pot_voltage := (b 9 : ℚ) * (2 / 100),
    idle_switch := if b 10 = 0 then 0 else 1,
    park_neutral_switch := if b 12 = 0 then 0 else 1,
    fault_codes := fc4,
    iac_position := b 18 }

/-- mems_read (protocol.c lines 250-301): lock, send MEMS_ReqData, read a
full frame, decode it into the caller record, unlock.  On every failure
path the caller record is returned unchanged. -/
def mems_read (info : MemsInfo) (data : MemsData) : Bool × MemsData × MemsInfo :=
  match mems_lock info with
  | (lockOk, i0) =>
    if lockOk then
      match mems_send_command i0 MEMS_ReqData with
      | (sendOk, i1) =>
        if sendOk then
          match mems_read_serial i1 (frameSize : Int) with
          | (r, bs, i2) =>
            if r = (frameSize : Int) then
              (true, decode_frame bs data, mems_unlock i2)
            else
              (false, data, mems_unlock i2)
        else
          (false, data, mems_unlock i1)
    else
      (false, data, i0)

/-- mems_read_raw (protocol.c lines 220-245): lock, send MEMS_ReqData,
read a raw frame into the caller buffer, unlock.  Returns the bytes that
were placed in the caller frame buffer. -/
def mems_read_raw (info : MemsInfo) : Bool × List Nat × MemsInfo :=
  match mems_lock info with
  | (lockOk, i0) =>
    if lockOk then
      match mems_send_command i0 MEMS_ReqData with
      | (sendOk, i1) =>
        if sendOk then
          match mems_read_serial i1 (frameSize : Int) with
          | (r, bs, i2) =>
            (decide (r = (frameSize : Int)), bs, mems_unlock i2)
        else
          (false, [], mems_unlock i1)
    else
      (false, [], i0)

/-- mems_fuel_pump_control (protocol.c lines 306-319): lock, then
`status = send_command(cmd) && (read_serial(1) == 1)`, unlock. -/
def mems_fuel_pump_control (info : MemsInfo) (pump_on : Bool) : Bool × MemsInfo :=
  let cmd := if pump_on then MEMS_FuelPumpOn else MEMS_FuelPumpOff
  match mems_lock info with
  | (lockOk, i0) =>
    if lockOk then
      match mems_send_command i0 cmd with
      | (sendOk, i1) =>
        if sendOk then
          match mems_read_serial i1 1 with
          | (r, _, i2) => (decide (r = 1), mems_unlock i2)
        else
          (false, mems_unlock i1)
    else
      (false, i0)

/-- mems_ptc_relay_control (protocol.c lines 325-338). -/
def mems_ptc_relay_control (info : MemsInfo) (relay_on : Bool) : Bool × MemsInfo :=
  let cmd := if relay_on then MEMS_PTCRelayOn else MEMS_PTCRelayOff
  match mems_lock info with
  | (lockOk, i0) =>
    if lockOk then
      match mems_send_command i0 cmd with
      | (sendOk, i1) =>
        if sendOk then
          match mems_read_serial i1 1 with
          | (r, _, i2) => (decide (r = 1), mems_unlock i2)
        else
          (false, mems_unlock i1)
    else
      (false, i0)

/-- mems_ac_relay_control (protocol.c lines 343-356). -/
def mems_ac_relay_control (info : MemsInfo) (relay_on : Bool) : Bool × MemsInfo :=
  let cmd := if relay_on then MEMS_ACRelayOn else MEMS_ACRelayOff
  match mems_lock info with
  | (lockOk, i0) =>
    if lockOk then
      match mems_send_command i0 cmd with
      | (sendOk, i1) =>
        if sendOk then
          match mems_read_serial i1 1 with
          | (r, _, i2) => (decide (r = 1), mems_unlock i2)
        else
          (false, mems_unlock i1)
    else
      (false, i0)

/-- mems_test_injectors (protocol.c lines 361-374). -/
def mems_test_injectors (info : MemsInfo) : Bool × MemsInfo :=
  match mems_lock info with
  | (lockOk, i0) =>
    if lockOk then
      match mems_send_command i0 MEMS_TestInjectors with
      | (sendOk, i1) =>
        if sendOk then
          match mems_read_serial i1 1 with
          | (r, _, i2) => (decide (r = 1), mems_unlock i2)
        else
          (false, mems_unlock i1)
    else
      (false, i0)

/-- mems_test_coil (protocol.c lines 379-391). -/
def mems_test_coil (info : MemsInfo) : Bool × MemsInfo :=
  match mems_lock info with
  | (lockOk, i0) =>
    if lockOk then
      match mems_send_command i0 MEMS_FireCoil with
      | (sendOk, i1) =>
        if sendOk then
          match mems_read_serial i1 1 with
          | (r, _, i2) => (decide (r = 1), mems_unlock i2)
        else
          (false, mems_unlock i1)
    else
      (false, i0)

/-- mems_read_iac_position (protocol.c lines 396-407).  `position` is the
current value of the caller byte; it is replaced by the byte read when
one arrives. -/
def mems_read_iac_position (info : MemsInfo) (position : Nat) : Bool × Nat × MemsInfo :=
  match mems_lock info with
  | (lockOk, i0) =>
    if lockOk then
      match mems_send_command i0 MEMS_GetIACPosition with
      | (sendOk, i1) =>
        if sendOk then
          match mems_read_serial i1 1 with
          | (r, bs, i2) => (decide (r = 1), bs.headD position, mems_unlock i2)
        else
          (false, position, mems_unlock i1)
    else
      (false, position, i0)

/-- mems_move_idle_bypass_motor (protocol.c lines 412-424). -/
def mems_move_idle_bypass_motor (info : MemsInfo) (close : Bool) (position : Nat) :
    Bool × Nat × MemsInfo :=
  let cmd := if close then MEMS_CloseIAC else MEMS_OpenIAC
  match mems_lock info with
  | (lockOk, i0) =>
    if lockOk then
      match mems_send_command i0 cmd with
      | (sendOk, i1) =>
        if sendOk then
          match mems_read_serial i1 1 with
          | (r, bs, i2) => (decide (r = 1), bs.headD position, mems_unlock i2)
        else
          (false, position, mems_unlock i1)
    else
      (false, position, i0)

/-- mems_clear_faults (protocol.c lines 429-447).  The source computes
`status = mems_send_command(0xCC) && (mems_read_serial(1) == 1);` and is
then followed by a bare block containing only `status = true;`, which
runs unconditionally and overwrites the computed status.  The embedding
reproduces that overwrite faithfully. -/
def mems_clear_faults (info : MemsInfo) : Bool × MemsInfo :=
  match mems_lock info with
  | (lockOk, i0) =>
    if lockOk then
      match mems_send_command i0 MEMS_ClearFaults with
      | (sendOk, i1) =>
        let (statusPre, i2) :=
          if sendOk then
            match mems_read_serial i1 1 with
            | (r, _, i2a) => (decide (r = 1), i2a)
          else
            (false, i1)
        -- the stray block in the source: status = true, regardless of statusPre
        let _ := statusPre
        let status := true
        (status, mems_unlock i2)
    else
      (false, i0)

/-- mems_heartbeat (protocol.c lines 452-470): here the success
assignment is correctly guarded by the condition. -/
def mems_heartbeat (info : MemsInfo) : Bool × MemsInfo :=
  match mems_lock info with
  | (lockOk, i0) =>
    if lockOk then
      match mems_send_command i0 MEMS_Heartbeat with
      | (sendOk, i1) =>
        if sendOk then
          match mems_read_serial i1 1 with
          | (r, _, i2) => (decide (r = 1), mems_unlock i2)
        else
          (false, mems_unlock i1)
    else
      (false, i0)

/-- mems_init_link (protocol.c lines 129-172): the fixed handshake
0xCA, 0x75, heartbeat 0xF4 plus one trailing byte, 0xD0 plus four
identification bytes, each step aborting the call on failure.  The
second component is the content of the caller d0_response_buffer
(bytes written by the final read; empty when that read never ran). -/
def mems_init_link (info : MemsInfo) : Bool × List Nat × MemsInfo :=
  let s1 := mems_send_command info 0xCA
  if ¬s1.1 then (false, [], s1.2) else
  let s2 := mems_send_command s1.2 0x75
  if ¬s2.1 then (false, [], s2.2) else
  let s3 := mems_send_command s2.2 MEMS_Heartbeat
  if ¬s3.1 then (false, [], s3.2) else
  let t1 := mems_read_serial s3.2 1
  if t1.1 ≠ 1 then (false, [], t1.2.2) else
  let s4 := mems_send_command t1.2.2 0xD0
  if ¬s4.1 then (false, [], s4.2) else
  let t4 := mems_read_serial s4.2 4
  if t4.1 ≠ 4 then (false, t4.2.1, t4.2.2) else
  (true, t4.2.1, t4.2.2)

/-- mems_openserial (setup.c lines 147-261, POSIX branch).  The OS
behaviour is an oracle: `openRes` is the descriptor returned by open(2)
and `setupOk` tells whether the tcgetattr/tcflush/tcsetattr sequence
succeeded.  On a configuration failure the source closes the descriptor
but leaves the `sd` field holding the stale value. -/
def mems_openserial (info : MemsInfo) (openRes : Int) (setupOk : Bool) : Bool × MemsInfo :=
  let i1 := { info with sd := openRes }
  if 0 < openRes then
    (setupOk, i1)
  else
    (false, i1)

/-- mems_connect (setup.c lines 118-135, POSIX branch): lock the mutex,
then `result = mems_is_connected(info) || mems_openserial(info, devPath)`
(short-circuit: no reopen when already connected), then unlock. -/
def mems_connect (info : MemsInfo) (openRes : Int) (setupOk : Bool) : Bool × MemsInfo :=
  let i0 := { info with locked := true, locks := info.locks + 1 }
  let res :=
    if mems_is_connected i0 then (true, i0)
    else mems_openserial i0 openRes setupOk
  match res with
  | (result, i1) =>
    (result, { i1 with locked := false, unlocks := i1.unlocks + 1 })

/-- Modelled from the spec: `mems_move_iac` is declared in the headers
and called by the front end but its definition is not under src/.
Spec 4.5: read the current position (assumed already queried here and
passed as `current`); if the target equals the current position, or the
target is above it while the valve is already at IAC_MAXIMUM, no step
command is issued and the call is satisfied; otherwise the chosen
one-step command (open-step when target > current, close-step
otherwise) is issued repeatedly, reading the position back after each
step, until the read position equals the target or 300 attempts were
made; the result is true iff the last observed position equals the
target.  `step` models the position read back after one step command.
This loop issues one step, then repeats while the position differs from
the target and fewer than `fuel` attempts were made in total; it
returns the last observed position and the number of step commands
issued. -/
def iac_steps (step : Nat → Nat) (target : Nat) : Nat → Nat → Nat × Nat
  | pos, 0 => (pos, 0)
  | pos, fuel + 1 =>
      let p := step pos
      if p = target ∨ fuel = 0 then
        (p, 1)
      else
        match iac_steps step target p fuel with
        | (q, k) => (q, k + 1)

/-- Modelled from the spec: the convergence controller `mems_move_iac`
(see `iac_steps`).  Returns the result, the number of step commands
issued, and the chosen direction (`none` when no command was issued,
`some true` for the open-step command, `some false` for close-step). -/
def mems_move_iac (step : Nat → Nat) (current target : Nat) : Bool × Nat × Option Bool :=
  if target = current then
    (true, 0, none)
  else if current < target ∧ IAC_MAXIMUM ≤ current then
    (true, 0, none)
  else
    let dir := decide (current < target)
    match iac_steps step target current 300 with
    | (p, k) => (decide (p = target), k, some dir)

/-- A concrete primary frame used to evaluate the decoder: rpm bytes
0x12/0x34, coolant 55, battery 140, throttle 50, dtc0 0x03, dtc1 0x82,
IAC position 0x5A, everything else 0. -/
def testFrame : List Nat :=
  [0x00, 0x12, 0x34, 55, 0, 0, 0, 0, 140, 50, 0, 0, 0, 0x03, 0x82, 0, 0, 0,
   0x5A, 0, 0, 0, 0, 0, 0, 0, 0, 0]

/-- A sample caller record with fuel_temp_f = 5 and every other field 0. -/
def sampleData : MemsData :=
  { engine_rpm := 0, coolant_temp_f := 0, ambient_temp_f := 0,
    intake_air_temp_f := 0, fuel_temp_f := 5, map_psi := 0,
    battery_voltage := 0, throttle_pot_voltage := 0, idle_switch := 0,
    park_neutral_switch := 0, fault_codes := 0, iac_position := 0 }

/-- A transport on which the 0x80 echo succeeds but the frame read
delivers 20 bytes and then times out (short read). -/
def infoShortFrame : MemsInfo :=
  { sd := 1, locked := false, locks := 0, unlocks := 0,
    writeResults := [1],
    readResults := [some [0x80], some (List.replicate 20 0), some []] }

/-- A transport on which the 0x80 echo succeeds and the frame read
delivers a full 28-byte all-zero frame. -/
def infoFullFrame : MemsInfo :=
  { sd := 1, locked := false, locks := 0, unlocks := 0,
    writeResults := [1],
    readResults := [some [0x80], some (List.replicate 28 0)] }

/-- A transport on which the very first write fails (write returns -1). -/
def infoFailedWrite : MemsInfo :=
  { sd := 1, locked := false, locks := 0, unlocks := 0,
    writeResults := [-1], readResults := [] }

/-- A transport scripting a fully successful init handshake, with the
Mini SPi identification response 99 00 03 03. -/
def infoHandshake : MemsInfo :=
  { sd := 1, locked := false, locks := 0, unlocks := 0,
    writeResults := [1, 1, 1, 1],
    readResults := [some [0xCA], some [0x75], some [0xF4], some [0x00],
                    some [0xD0], some [0x99, 0x00, 0x03, 0x03]] }

/-- A connection record that is already open (sd = 1) with empty scripts. -/
def infoOpen : MemsInfo :=
  { sd := 1, locked := false, locks := 0, unlocks := 0,
    writeResults := [], readResults := [] }

/-- A connection record that is not yet open (sd = 0). -/
def infoClosed : MemsInfo :=
  { sd := 0, locked := false, locks := 0, unlocks := 0,
    writeResults := [], readResults := [] }

end Librosco

namespace Librosco

/-- C1: mems_send_command returns true if and only if the one-byte write
reports exactly one byte written, the subsequent one-byte read reports
exactly one byte read, and the byte placed in the response buffer equals
the command byte; every deviation yields false. -/
theorem send_command_true_iff_echo (info : MemsInfo) (cmd : Nat) :
    (mems_send_command info cmd).1 = true ↔
      ((mems_write_serial info 1).1 = 1 ∧
       (mems_read_serial (mems_write_serial info 1).2 1).1 = 1 ∧
       (mems_read_serial (mems_write_serial info 1).2 1).2.1.headD 0xFF = cmd) := by
  unfold mems_send_command
  rcases hw : mems_write_serial info 1 with ⟨w, info1⟩
  rcases hr : mems_read_serial info1 1 with ⟨r, data, info2⟩
  simp only [hw, hr]
  by_cases h1 : w = 1
  · by_cases h2 : r = 1
    · simp [h1, h2]
    · simp [h1, h2]
  · simp [h1]

/-- C1 witness: a concrete transport on which every condition holds and
mems_send_command returns true. -/
theorem send_command_true_iff_echo_witness :
    (mems_send_command
      { sd := 1, locked := false, locks := 0, unlocks := 0,
        writeResults := [1], readResults := [some [0xCA]] } 0xCA).1 = true :=
  (send_command_true_iff_echo
      { sd := 1, locked := false, locks := 0, unlocks := 0,
        writeResults := [1], readResults := [some [0xCA]] } 0xCA).mpr
    (by refine ⟨by decide, by decide, by decide⟩)

/-- C2: frame decode is a pure function of the raw frame bytes: the
decoded rpm is (hi << 8) | lo; the fault mask is the bitwise OR of the
four independent bit tests on dtc0/dtc1; coolant byte 55 decodes to 32,
battery byte 140 to 14.0, throttle byte 50 to 1.0, and the frame with
dtc0 = 0x03, dtc1 = 0x82 yields mask 0b1111. -/
theorem decode_frame_facts (bs : List Nat) (old : MemsData) :
    (decode_frame bs old).engine_rpm = (bs.getD 1 0) <<< 8 ||| (bs.getD 2 0) ∧
    (decode_frame bs old).fault_codes =
      ((if bs.getD 13 0 &&& 0x01 ≠ 0 then 1 else 0) |||
       (if bs.getD 13 0 &&& 0x02 ≠ 0 then 2 else 0) |||
       (if bs.getD 14 0 &&& 0x02 ≠ 0 then 4 else 0) |||
       (if bs.getD 14 0 &&& 0x80 ≠ 0 then 8 else 0)) ∧
    temperature_value_to_degrees_f 55 = 32 ∧
    (decode_frame testFrame old).engine_rpm = 0x1234 ∧
    (decode_frame testFrame old).coolant_temp_f = 32 ∧
    (decode_frame testFrame old).battery_voltage = 14 ∧
    (decode_frame testFrame old).throttle_pot_voltage = 1 ∧
    (decode_frame testFrame old).fault_codes = 0b1111 := by
  refine ⟨rfl, ?_, by decide, by rfl, by rfl, ?_, ?_, by rfl⟩
  · simp only [decode_frame]
    split_ifs <;> decide
  · show ((140 : Nat) : ℚ) / 10 = 14
    norm_num
  · show ((50 : Nat) : ℚ) * (2 / 100) = 1
    norm_num

/-- C9: the temperature conversion runs in wrapping 8-bit arithmetic:
for every byte, the result is the truncation of
((val - 55) mod 256) * 1.8 + 32 reduced modulo 256, so bytes below the
zero-offset 55 wrap around; in particular raw 0 decodes to 137. -/
theorem temperature_wraps_uint8 (val : Nat) (h : val < 256) :
    ((temperature_value_to_degrees_f val : Nat) : Int) =
      ((((val : Int) - 55) % 256) * 9 / 5 + 32) % 256 ∧
    temperature_value_to_degrees_f 0 = 137 := by
  constructor
  · simp only [temperature_value_to_degrees_f]
    have hint : ((val : Int) - 55) % 256 = ((val + 256 - 55) % 256 : Nat) := by omega
    rw [hint]
    norm_cast
  · decide

/-- C9 witness: the theorem applied at raw value 0. -/
theorem temperature_wraps_uint8_witness :
    ((temperature_value_to_degrees_f 0 : Nat) : Int) =
      ((((0 : Int) - 55) % 256) * 9 / 5 + 32) % 256 ∧
    temperature_value_to_degrees_f 0 = 137 :=
  ⟨(temperature_wraps_uint8 0 (by decide)).1, (temperature_wraps_uint8 0 (by decide)).2⟩

/-- C4: on a transport where the write of the 0xCC command fails, the
echoed-command check fails, yet mems_clear_faults still returns true:
the stray block in the source overwrites the computed status.  This
contradicts the comment above the code (which matches mems_heartbeat,
where the assignment is properly guarded) and the fail-fast policy. -/
theorem clear_faults_true_despite_failure :
    (mems_clear_faults infoFailedWrite).1 = true ∧
    (mems_send_command (mems_lock infoFailedWrite).2 MEMS_ClearFaults).1 = false := by
  constructor
  · decide
  · decide

/-- Number of step commands issued by the convergence loop never
exceeds the fuel bound. -/
theorem iac_steps_le (step : Nat → Nat) (target : Nat) :
    ∀ fuel pos, (iac_steps step target pos fuel).2 ≤ fuel := by
  intro fuel
  induction fuel with
  | zero => intro pos; simp [iac_steps]
  | succ n ih =>
      intro pos
      unfold iac_steps
      by_cases hstop : step pos = target ∨ n = 0
      · simp [hstop]
      · simp only [hstop, if_false]
        rcases hrec : iac_steps step target (step pos) n with ⟨q, k⟩
        have := ih (step pos)
        rw [hrec] at this
        simpa using Nat.succ_le_succ this

/-- A step model that never moves the position makes the loop consume
its whole attempt budget. -/
theorem iac_steps_fixed (target pos : Nat) (h : pos ≠ target) :
    ∀ fuel, 0 < fuel → iac_steps (fun p => p) target pos fuel = (pos, fuel) := by
  intro fuel
  induction fuel with
  | zero => intro h0; exact absurd h0 (by simp)
  | succ n ih =>
      intro _
      unfold iac_steps
      by_cases hn : n = 0
      · subst hn
        simp [h]
      · have hrec := ih (Nat.pos_of_ne_zero hn)
        simp [h, hn, hrec]

/-- C8: the convergence controller issues no step when the current
position equals the target and returns true; a step model adding 0x10
per call takes position 0x20 to target 0x40 in exactly 2 open-steps;
a step model that never moves fails after exactly 300 attempts; and no
call ever issues more than 300 step commands. -/
theorem move_iac_convergence :
    (∀ (step : Nat → Nat) (current : Nat),
        mems_move_iac step current current = (true, 0, none)) ∧
    mems_move_iac (fun p => p + 0x10) 0x20 0x40 = (true, 2, some true) ∧
    mems_move_iac (fun p => p) 0x20 0x40 = (false, 300, some true) ∧
    (∀ (step : Nat → Nat) (current target : Nat),
        (mems_move_iac step current target).2.1 ≤ 300) := by
  refine ⟨?_, by decide, ?_, ?_⟩
  · intro step current
    simp [mems_move_iac]
  · have h := iac_steps_fixed 0x40 0x20 (by decide) 300 (by decide)
    unfold mems_move_iac
    rw [if_neg (by decide), if_neg (by decide), h]
    decide
  · intro step current target
    unfold mems_move_iac
    by_cases h1 : target = current
    · simp [h1]
    · by_cases h2 : current < target ∧ IAC_MAXIMUM ≤ current
      · simp [h1, h2]
      · have := iac_steps_le step target 300 current
        rcases hrec : iac_steps step target current 300 with ⟨p, k⟩
        rw [hrec] at this
        simp [h1, h2, hrec]
        exact this

/-- C3: mems_read never mutates the caller record on a failure path,
and a frame read that yields anything other than the full 28 bytes makes
mems_read fail. -/
theorem read_failure_no_mutation (info : MemsInfo) (data : MemsData) :
    ((mems_read info data).1 = false → (mems_read info data).2.1 = data) ∧
    ((mems_read_serial (mems_send_command (mems_lock info).2 MEMS_ReqData).2
        (frameSize : Int)).1 ≠ (frameSize : Int) →
      (mems_read info data).1 = false) := by
  simp only [mems_read, mems_lock]
  rcases hs : mems_send_command
      { info with locked := true, locks := info.locks + 1 } MEMS_ReqData with ⟨sendOk, i1⟩
  simp only [hs]
  cases sendOk
  · exact ⟨fun _ => rfl, fun _ => rfl⟩
  · rcases hr : mems_read_serial i1 (frameSize : Int) with ⟨r, bs, i2⟩
    simp only [hr]
    by_cases h28 : r = (frameSize : Int)
    · simp only [h28, if_pos rfl]
      refine ⟨fun hfalse => by simp at hfalse, fun hne => ?_⟩
      exact absurd rfl hne
    · simp only [if_neg h28]
      exact ⟨fun _ => rfl, fun _ => rfl⟩

/-- C3 witness: on a transport that delivers the command echo but only
20 bytes of the 28-byte frame before timing out, mems_read fails and
returns the caller record unchanged. -/
theorem read_failure_no_mutation_witness :
    (mems_read infoShortFrame sampleData).1 = false ∧
    (mems_read infoShortFrame sampleData).2.1 = sampleData :=
  ⟨(read_failure_no_mutation infoShortFrame sampleData).2 (by decide),
   (read_failure_no_mutation infoShortFrame sampleData).1
     ((read_failure_no_mutation infoShortFrame sampleData).2 (by decide))⟩

/-- C5 counterexample: a fully successful mems_read leaves fuel_temp_f
holding the stale caller value (5), although the frame carries a fuel
temperature byte (0, which the temperature transform would decode to
137): the decode block never assigns fuel_temp_f. -/
theorem read_fuel_temp_stale :
    (mems_read infoFullFrame sampleData).1 = true ∧
    (mems_read infoFullFrame sampleData).2.1.fuel_temp_f = 5 ∧
    temperature_value_to_degrees_f ((List.replicate 28 0).getD 6 0) = 137 := by
  exact ⟨by decide, by decide, by decide⟩

/-- C5 (amended): on success mems_read populates every field of the
output from the decoded frame except fuel_temp_f, which always keeps
the caller value; the populated fields do not depend on the caller
record. -/
theorem read_populates_all_but_fuel (info : MemsInfo) (d1 d2 : MemsData) :
    (∀ bs, (decode_frame bs d1).fuel_temp_f = d1.fuel_temp_f ∧
           decode_frame bs d1 = { decode_frame bs d2 with fuel_temp_f := d1.fuel_temp_f }) ∧
    ((mems_read info d1).1 = true →
      ∃ bs, (mems_read info d1).2.1 = decode_frame bs d1 ∧
            (mems_read info d2).1 = true ∧
            (mems_read info d2).2.1 = decode_frame bs d2) := by
  constructor
  · intro bs
    exact ⟨rfl, rfl⟩
  · simp only [mems_read, mems_lock]
    rcases hs : mems_send_command
        { info with locked := true, locks := info.locks + 1 } MEMS_ReqData with ⟨sendOk, i1⟩
    simp only [hs]
    cases sendOk
    · intro hfalse
      simp at hfalse
    · rcases hr : mems_read_serial i1 (frameSize : Int) with ⟨r, bs, i2⟩
      simp only [hr]
      by_cases h28 : r = (frameSize : Int)
      · simp only [h28, if_pos rfl]
        intro _
        exact ⟨bs, rfl, rfl, rfl⟩
      · simp only [if_neg h28]
        intro hfalse
        simp at hfalse

/-- C5 witness: the amended theorem applied to a successful read. -/
theorem read_populates_all_but_fuel_witness :
    (mems_read infoFullFrame sampleData).1 = true ∧
    ∃ bs, (mems_read infoFullFrame sampleData).2.1 = decode_frame bs sampleData := by
  refine ⟨by decide, ?_⟩
  obtain ⟨bs, h1, _, _⟩ :=
    (read_populates_all_but_fuel infoFullFrame sampleData sampleData).2 (by decide)
  exact ⟨bs, h1⟩

/-- A successful mems_connect always leaves a positive descriptor. -/
theorem connect_sd_pos (info : MemsInfo) (o : Int) (s : Bool) :
    (mems_connect info o s).1 = true → 0 < (mems_connect info o s).2.sd := by
  unfold mems_connect mems_openserial
  by_cases hc : mems_is_connected { info with locked := true, locks := info.locks + 1 }
  · simp only [hc, if_pos rfl]
    intro _
    simpa [mems_is_connected, decide_eq_true_eq] using hc
  · simp only [hc]
    by_cases ho : 0 < o
    · simp [ho]
    · simp [ho]

/-- On an already-open connection, mems_connect succeeds and changes
nothing but the ghost lock counters. -/
theorem connect_of_sd_pos (i : MemsInfo) (o : Int) (s : Bool) (h : 0 < i.sd) :
    (mems_connect i o s).1 = true ∧ (mems_connect i o s).2.sd = i.sd ∧
    (mems_connect i o s).2.writeResults = i.writeResults ∧
    (mems_connect i o s).2.readResults = i.readResults := by
  have hc : mems_is_connected { i with locked := true, locks := i.locks + 1 } = true := by
    simp [mems_is_connected, h]
  refine ⟨?_, ?_, ?_, ?_⟩ <;> simp [mems_connect, hc]

/-- C10: connecting when the connection is already open returns true
without touching the descriptor or the transport; consequently a second
mems_connect after any successful one succeeds and keeps the
descriptor. -/
theorem connect_idempotent (info info2 : MemsInfo)
    (oo : Int) (ss : Bool) (oo2 : Int) (ss2 : Bool) (h : 0 < info.sd) :
    ((mems_connect info oo ss).1 = true ∧
     (mems_connect info oo ss).2.sd = info.sd ∧
     (mems_connect info oo ss).2.writeResults = info.writeResults ∧
     (mems_connect info oo ss).2.readResults = info.readResults) ∧
    ((mems_connect info2 oo ss).1 = true →
      ((mems_connect (mems_connect info2 oo ss).2 oo2 ss2).1 = true ∧
       (mems_connect (mems_connect info2 oo ss).2 oo2 ss2).2.sd =
         (mems_connect info2 oo ss).2.sd)) := by
  refine ⟨connect_of_sd_pos info oo ss h, ?_⟩
  intro htrue
  have hpos : 0 < (mems_connect info2 oo ss).2.sd := connect_sd_pos info2 oo ss htrue
  have h2 := connect_of_sd_pos (mems_connect info2 oo ss).2 oo2 ss2 hpos
  exact ⟨h2.1, h2.2.1⟩

/-- C6: mems_init_link runs exactly the fixed handshake in strict order
(0xCA echo, 0x75 echo, heartbeat 0xF4 echo plus one trailing byte, 0xD0
echo plus exactly four identification bytes placed in the caller
buffer), succeeds only when every step does, and stops at the first
failing step with no later step executed (the transport state it
returns is the one left by the failing step). -/
theorem init_link_handshake (info : MemsInfo) :
    ∃ (a : Bool) (i1 : MemsInfo) (b : Bool) (i2 : MemsInfo) (c : Bool) (i3 : MemsInfo)
      (r1 : Int) (w1 : List Nat) (i4 : MemsInfo) (d : Bool) (i5 : MemsInfo)
      (r4 : Int) (buf : List Nat) (i6 : MemsInfo),
      mems_send_command info 0xCA = (a, i1) ∧
      mems_send_command i1 0x75 = (b, i2) ∧
      mems_send_command i2 MEMS_Heartbeat = (c, i3) ∧
      mems_read_serial i3 1 = (r1, w1, i4) ∧
      mems_send_command i4 0xD0 = (d, i5) ∧
      mems_read_serial i5 4 = (r4, buf, i6) ∧
      ((mems_init_link info).1 = true ↔
        (a = true ∧ b = true ∧ c = true ∧ r1 = 1 ∧ d = true ∧ r4 = 4)) ∧
      ((mems_init_link info).1 = true → mems_init_link info = (true, buf, i6)) ∧
      (a = false → mems_init_link info = (false, [], i1)) ∧
      (a = true → b = false → mems_init_link info = (false, [], i2)) ∧
      (a = true → b = true → c = false → mems_init_link info = (false, [], i3)) ∧
      (a = true → b = true → c = true → r1 ≠ 1 → mems_init_link info = (false, [], i4)) ∧
      (a = true → b = true → c = true → r1 = 1 → d = false →
        mems_init_link info = (false, [], i5)) ∧
      (a = true → b = true → c = true → r1 = 1 → d = true → r4 ≠ 4 →
        mems_init_link info = (false, buf, i6)) := by
  rcases hA : mems_send_command info 0xCA with ⟨a, i1⟩
  rcases hB : mems_send_command i1 0x75 with ⟨b, i2⟩
  rcases hC : mems_send_command i2 MEMS_Heartbeat with ⟨c, i3⟩
  rcases hR1 : mems_read_serial i3 1 with ⟨r1, w1, i4⟩
  rcases hD : mems_send_command i4 0xD0 with ⟨d, i5⟩
  rcases hR4 : mems_read_serial i5 4 with ⟨r4, buf, i6⟩
  refine ⟨a, i1, b, i2, c, i3, r1, w1, i4, d, i5, r4, buf, i6,
    rfl, hB, hC, hR1, hD, hR4, ?_, ?_, ?_, ?_, ?_, ?_, ?_, ?_⟩
  · simp only [mems_init_link, hA, hB, hC, hR1, hD, hR4]
    split_ifs <;> simp_all
  · simp only [mems_init_link, hA, hB, hC, hR1, hD, hR4]
    split_ifs <;> simp_all
  · simp only [mems_init_link, hA, hB, hC, hR1, hD, hR4]
    split_ifs <;> simp_all
  · simp only [mems_init_link, hA, hB, hC, hR1, hD, hR4]
    split_ifs <;> simp_all
  · simp only [mems_init_link, hA, hB, hC, hR1, hD, hR4]
    split_ifs <;> simp_all
  · simp only [mems_init_link, hA, hB, hC, hR1, hD, hR4]
    split_ifs <;> simp_all
  · simp only [mems_init_link, hA, hB, hC, hR1, hD, hR4]
    split_ifs <;> simp_all
  · intro ha hb hc hr1 hd hr4
    simp only [mems_init_link, hA, hB, hC, hR1, hD, hR4]
    simp [ha, hb, hc, hr1, hd, hr4]

/-- C6 witness: on a transport scripting the full handshake, every step
succeeds and the identification bytes 99 00 03 03 are returned. -/
theorem init_link_handshake_witness :
    (mems_init_link infoHandshake).1 = true ∧
    (mems_init_link infoHandshake).2.1 = [0x99, 0x00, 0x03, 0x03] := by
  obtain ⟨a, i1, b, i2, c, i3, r1, w1, i4, d, i5, r4, buf, i6,
    hA, hB, hC, hR1, hD, hR4, hiff, hok, hrest⟩ := init_link_handshake infoHandshake
  exact ⟨by decide, by decide⟩

/-- C10 witness: the theorem applied to an already-open connection and
to a fresh connection whose open succeeds. -/
theorem connect_idempotent_witness :
    (mems_connect infoOpen (-1) false).1 = true ∧
    (mems_connect (mems_connect infoClosed 3 true).2 (-1) false).1 = true :=
  ⟨(connect_idempotent infoOpen infoClosed (-1) false (-1) false (by decide)).1.1,
   ((connect_idempotent infoOpen infoClosed 3 true (-1) false (by decide)).2
      (by decide)).1⟩

/-- mems_write_serial only consumes the write script: the lock state and
the ghost counters are untouched. -/
theorem write_serial_lock_fields (i : MemsInfo) (q : Int) :
    (mems_write_serial i q).2.locked = i.locked ∧
    (mems_write_serial i q).2.locks = i.locks ∧
    (mems_write_serial i q).2.unlocks = i.unlocks := by
  unfold mems_write_serial
  by_cases hc : mems_is_connected i
  · cases hw : i.writeResults <;> simp [hc, hw]
  · simp [hc]

/-- mems_read_serial only consumes the read script: the lock state and
the ghost counters are untouched. -/
theorem read_serial_lock_fields (i : MemsInfo) (q : Int) :
    (mems_read_serial i q).2.2.locked = i.locked ∧
    (mems_read_serial i q).2.2.locks = i.locks ∧
    (mems_read_serial i q).2.2.unlocks = i.unlocks := by
  unfold mems_read_serial
  by_cases hc : mems_is_connected i
  · rcases hl : read_loop q i.readResults 0 [] with ⟨t, d, rest⟩
    simp [hc, hl]
  · simp [hc]

/-- mems_send_command never touches the lock state or the counters. -/
theorem send_command_lock_fields (i : MemsInfo) (cmd : Nat) :
    (mems_send_command i cmd).2.locked = i.locked ∧
    (mems_send_command i cmd).2.locks = i.locks ∧
    (mems_send_command i cmd).2.unlocks = i.unlocks := by
  rcases hw : mems_write_serial i 1 with ⟨w, i1⟩
  have h1 : i1.locked = i.locked ∧ i1.locks = i.locks ∧ i1.unlocks = i.unlocks := by
    have h := write_serial_lock_fields i 1
    rw [hw] at h
    exact h
  rcases hr : mems_read_serial i1 1 with ⟨r, bs, i2⟩
  have h2 : i2.locked = i1.locked ∧ i2.locks = i1.locks ∧ i2.unlocks = i1.unlocks := by
    have h := read_serial_lock_fields i1 1
    rw [hr] at h
    exact h
  by_cases hw1 : w = 1 <;> by_cases hr1 : r = 1 <;>
    simp [mems_send_command, hw, hr, hw1, hr1,
      h1.1, h1.2.1, h1.2.2, h2.1, h2.2.1, h2.2.2]

/-- mems_read locks and unlocks exactly once and returns unlocked. -/
theorem read_lock_balanced (info : MemsInfo) (data : MemsData) :
    (mems_read info data).2.2.locked = false ∧
    (mems_read info data).2.2.locks = info.locks + 1 ∧
    (mems_read info data).2.2.unlocks = info.unlocks + 1 := by
  rcases hs : mems_send_command
      { info with locked := true, locks := info.locks + 1 } (MEMS_ReqData) with ⟨ok, i1⟩
  have h1 : i1.locks = info.locks + 1 ∧ i1.unlocks = info.unlocks := by
    have h := send_command_lock_fields
        { info with locked := true, locks := info.locks + 1 } (MEMS_ReqData)
    rw [hs] at h
    exact ⟨h.2.1, h.2.2⟩
  rcases hr : mems_read_serial i1 ((frameSize : Int)) with ⟨r, bs, i2⟩
  have h2 : i2.locks = i1.locks ∧ i2.unlocks = i1.unlocks := by
    have h := read_serial_lock_fields i1 ((frameSize : Int))
    rw [hr] at h
    exact ⟨h.2.1, h.2.2⟩
  cases ok <;> by_cases h28 : r = (frameSize : Int) <;>
    simp [mems_read, mems_lock, hs, hr, h28, mems_unlock, h1.1, h1.2, h2.1, h2.2]

/-- mems_read_raw locks and unlocks exactly once and returns unlocked. -/
theorem read_raw_lock_balanced (info : MemsInfo) :
    (mems_read_raw info).2.2.locked = false ∧
    (mems_read_raw info).2.2.locks = info.locks + 1 ∧
    (mems_read_raw info).2.2.unlocks = info.unlocks + 1 := by
  rcases hs : mems_send_command
      { info with locked := true, locks := info.locks + 1 } (MEMS_ReqData) with ⟨ok, i1⟩
  have h1 : i1.locks = info.locks + 1 ∧ i1.unlocks = info.unlocks := by
    have h := send_command_lock_fields
        { info with locked := true, locks := info.locks + 1 } (MEMS_ReqData)
    rw [hs] at h
    exact ⟨h.2.1, h.2.2⟩
  rcases hr : mems_read_serial i1 ((frameSize : Int)) with ⟨r, bs, i2⟩
  have h2 : i2.locks = i1.locks ∧ i2.unlocks = i1.unlocks := by
    have h := read_serial_lock_fields i1 ((frameSize : Int))
    rw [hr] at h
    exact ⟨h.2.1, h.2.2⟩
  cases ok <;>
    simp [mems_read_raw, mems_lock, hs, hr, mems_unlock, h1.1, h1.2, h2.1, h2.2]

/-- mems_read_iac_position locks and unlocks exactly once. -/
theorem iac_position_lock_balanced (info : MemsInfo) (pos : Nat) :
    (mems_read_iac_position info pos).2.2.locked = false ∧
    (mems_read_iac_position info pos).2.2.locks = info.locks + 1 ∧
    (mems_read_iac_position info pos).2.2.unlocks = info.unlocks + 1 := by
  rcases hs : mems_send_command
      { info with locked := true, locks := info.locks + 1 } (MEMS_GetIACPosition) with ⟨ok, i1⟩
  have h1 : i1.locks = info.locks + 1 ∧ i1.unlocks = info.unlocks := by
    have h := send_command_lock_fields
        { info with locked := true, locks := info.locks + 1 } (MEMS_GetIACPosition)
    rw [hs] at h
    exact ⟨h.2.1, h.2.2⟩
  rcases hr : mems_read_serial i1 (1) with ⟨r, bs, i2⟩
  have h2 : i2.locks = i1.locks ∧ i2.unlocks = i1.unlocks := by
    have h := read_serial_lock_fields i1 (1)
    rw [hr] at h
    exact ⟨h.2.1, h.2.2⟩
  cases ok <;>
    simp [mems_read_iac_position, mems_lock, hs, hr, mems_unlock, h1.1, h1.2, h2.1, h2.2]

/-- mems_fuel_pump_control locks and unlocks exactly once. -/
theorem fuel_pump_lock_balanced (info : MemsInfo) (b : Bool) :
    (mems_fuel_pump_control info b).2.locked = false ∧
    (mems_fuel_pump_control info b).2.locks = info.locks + 1 ∧
    (mems_fuel_pump_control info b).2.unlocks = info.unlocks + 1 := by
  rcases hs : mems_send_command
      { info with locked := true, locks := info.locks + 1 } (if b then MEMS_FuelPumpOn else MEMS_FuelPumpOff) with ⟨ok, i1⟩
  have h1 : i1.locks = info.locks + 1 ∧ i1.unlocks = info.unlocks := by
    have h := send_command_lock_fields
        { info with locked := true, locks := info.locks + 1 } (if b then MEMS_FuelPumpOn else MEMS_FuelPumpOff)
    rw [hs] at h
    exact ⟨h.2.1, h.2.2⟩
  rcases hr : mems_read_serial i1 (1) with ⟨r, bs, i2⟩
  have h2 : i2.locks = i1.locks ∧ i2.unlocks = i1.unlocks := by
    have h := read_serial_lock_fields i1 (1)
    rw [hr] at h
    exact ⟨h.2.1, h.2.2⟩
  cases ok <;>
    simp [mems_fuel_pump_control, mems_lock, hs, hr, mems_unlock, h1.1, h1.2, h2.1, h2.2]

/-- mems_ptc_relay_control locks and unlocks exactly once. -/
theorem ptc_relay_lock_balanced (info : MemsInfo) (b : Bool) :
    (mems_ptc_relay_control info b).2.locked = false ∧
    (mems_ptc_relay_control info b).2.locks = info.locks + 1 ∧
    (mems_ptc_relay_control info b).2.unlocks = info.unlocks + 1 := by
  rcases hs : mems_send_command
      { info with locked := true, locks := info.locks + 1 } (if b then MEMS_PTCRelayOn else MEMS_PTCRelayOff) with ⟨ok, i1⟩
  have h1 : i1.locks = info.locks + 1 ∧ i1.unlocks = info.unlocks := by
    have h := send_command_lock_fields
        { info with locked := true, locks := info.locks + 1 } (if b then MEMS_PTCRelayOn else MEMS_PTCRelayOff)
    rw [hs] at h
    exact ⟨h.2.1, h.2.2⟩
  rcases hr : mems_read_serial i1 (1) with ⟨r, bs, i2⟩
  have h2 : i2.locks = i1.locks ∧ i2.unlocks = i1.unlocks := by
    have h := read_serial_lock_fields i1 (1)
    rw [hr] at h
    exact ⟨h.2.1, h.2.2⟩
  cases ok <;>
    simp [mems_ptc_relay_control, mems_lock, hs, hr, mems_unlock, h1.1, h1.2, h2.1, h2.2]

/-- mems_ac_relay_control locks and unlocks exactly once. -/
theorem ac_relay_lock_balanced (info : MemsInfo) (b : Bool) :
    (mems_ac_relay_control info b).2.locked = false ∧
    (mems_ac_relay_control info b).2.locks = info.locks + 1 ∧
    (mems_ac_relay_control info b).2.unlocks = info.unlocks + 1 := by
  rcases hs : mems_send_command
      { info with locked := true, locks := info.locks + 1 } (if b then MEMS_ACRelayOn else MEMS_ACRelayOff) with ⟨ok, i1⟩
  have h1 : i1.locks = info.locks + 1 ∧ i1.unlocks = info.unlocks := by
    have h := send_command_lock_fields
        { info with locked := true, locks := info.locks + 1 } (if b then MEMS_ACRelayOn else MEMS_ACRelayOff)
    rw [hs] at h
    exact ⟨h.2.1, h.2.2⟩
  rcases hr : mems_read_serial i1 (1) with ⟨r, bs, i2⟩
  have h2 : i2.locks = i1.locks ∧ i2.unlocks = i1.unlocks := by
    have h := read_serial_lock_fields i1 (1)
    rw [hr] at h
    exact ⟨h.2.1, h.2.2⟩
  cases ok <;>
    simp [mems_ac_relay_control, mems_lock, hs, hr, mems_unlock, h1.1, h1.2, h2.1, h2.2]

/-- mems_test_injectors locks and unlocks exactly once. -/
theorem injectors_lock_balanced (info : MemsInfo) :
    (mems_test_injectors info).2.locked = false ∧
    (mems_test_injectors info).2.locks = info.locks + 1 ∧
    (mems_test_injectors info).2.unlocks = info.unlocks + 1 := by
  rcases hs : mems_send_command
      { info with locked := true, locks := info.locks + 1 } (MEMS_TestInjectors) with ⟨ok, i1⟩
  have h1 : i1.locks = info.locks + 1 ∧ i1.unlocks = info.unlocks := by
    have h := send_command_lock_fields
        { info with locked := true, locks := info.locks + 1 } (MEMS_TestInjectors)
    rw [hs] at h
    exact ⟨h.2.1, h.2.2⟩
  rcases hr : mems_read_serial i1 (1) with ⟨r, bs, i2⟩
  have h2 : i2.locks = i1.locks ∧ i2.unlocks = i1.unlocks := by
    have h := read_serial_lock_fields i1 (1)
    rw [hr] at h
    exact ⟨h.2.1, h.2.2⟩
  cases ok <;>
    simp [mems_test_injectors, mems_lock, hs, hr, mems_unlock, h1.1, h1.2, h2.1, h2.2]

/-- mems_test_coil locks and unlocks exactly once. -/
theorem coil_lock_balanced (info : MemsInfo) :
    (mems_test_coil info).2.locked = false ∧
    (mems_test_coil info).2.locks = info.locks + 1 ∧
    (mems_test_coil info).2.unlocks = info.unlocks + 1 := by
  rcases hs : mems_send_command
      { info with locked := true, locks := info.locks + 1 } (MEMS_FireCoil) with ⟨ok, i1⟩
  have h1 : i1.locks = info.locks + 1 ∧ i1.unlocks = info.unlocks := by
    have h := send_command_lock_fields
        { info with locked := true, locks := info.locks + 1 } (MEMS_FireCoil)
    rw [hs] at h
    exact ⟨h.2.1, h.2.2⟩
  rcases hr : mems_read_serial i1 (1) with ⟨r, bs, i2⟩
  have h2 : i2.locks = i1.locks ∧ i2.unlocks = i1.unlocks := by
    have h := read_serial_lock_fields i1 (1)
    rw [hr] at h
    exact ⟨h.2.1, h.2.2⟩
  cases ok <;>
    simp [mems_test_coil, mems_lock, hs, hr, mems_unlock, h1.1, h1.2, h2.1, h2.2]

/-- mems_move_idle_bypass_motor locks and unlocks exactly once. -/
theorem motor_lock_balanced (info : MemsInfo) (close : Bool) (pos : Nat) :
    (mems_move_idle_bypass_motor info close pos).2.2.locked = false ∧
    (mems_move_idle_bypass_motor info close pos).2.2.locks = info.locks + 1 ∧
    (mems_move_idle_bypass_motor info close pos).2.2.unlocks = info.unlocks + 1 := by
  rcases hs : mems_send_command
      { info with locked := true, locks := info.locks + 1 } (if close then MEMS_CloseIAC else MEMS_OpenIAC) with ⟨ok, i1⟩
  have h1 : i1.locks = info.locks + 1 ∧ i1.unlocks = info.unlocks := by
    have h := send_command_lock_fields
        { info with locked := true, locks := info.locks + 1 } (if close then MEMS_CloseIAC else MEMS_OpenIAC)
    rw [hs] at h
    exact ⟨h.2.1, h.2.2⟩
  rcases hr : mems_read_serial i1 (1) with ⟨r, bs, i2⟩
  have h2 : i2.locks = i1.locks ∧ i2.unlocks = i1.unlocks := by
    have h := read_serial_lock_fields i1 (1)
    rw [hr] at h
    exact ⟨h.2.1, h.2.2⟩
  cases ok <;>
    simp [mems_move_idle_bypass_motor, mems_lock, hs, hr, mems_unlock, h1.1, h1.2, h2.1, h2.2]

/-- mems_clear_faults locks and unlocks exactly once. -/
theorem clear_faults_lock_balanced (info : MemsInfo) :
    (mems_clear_faults info).2.locked = false ∧
    (mems_clear_faults info).2.locks = info.locks + 1 ∧
    (mems_clear_faults info).2.unlocks = info.unlocks + 1 := by
  rcases hs : mems_send_command
      { info with locked := true, locks := info.locks + 1 } (MEMS_ClearFaults) with ⟨ok, i1⟩
  have h1 : i1.locks = info.locks + 1 ∧ i1.unlocks = info.unlocks := by
    have h := send_command_lock_fields
        { info with locked := true, locks := info.locks + 1 } (MEMS_ClearFaults)
    rw [hs] at h
    exact ⟨h.2.1, h.2.2⟩
  rcases hr : mems_read_serial i1 (1) with ⟨r, bs, i2⟩
  have h2 : i2.locks = i1.locks ∧ i2.unlocks = i1.unlocks := by
    have h := read_serial_lock_fields i1 (1)
    rw [hr] at h
    exact ⟨h.2.1, h.2.2⟩
  cases ok <;>
    simp [mems_clear_faults, mems_lock, hs, hr, mems_unlock, h1.1, h1.2, h2.1, h2.2]

/-- mems_heartbeat locks and unlocks exactly once. -/
theorem heartbeat_lock_balanced (info : MemsInfo) :
    (mems_heartbeat info).2.locked = false ∧
    (mems_heartbeat info).2.locks = info.locks + 1 ∧
    (mems_heartbeat info).2.unlocks = info.unlocks + 1 := by
  rcases hs : mems_send_command
      { info with locked := true, locks := info.locks + 1 } (MEMS_Heartbeat) with ⟨ok, i1⟩
  have h1 : i1.locks = info.locks + 1 ∧ i1.unlocks = info.unlocks := by
    have h := send_command_lock_fields
        { info with locked := true, locks := info.locks + 1 } (MEMS_Heartbeat)
    rw [hs] at h
    exact ⟨h.2.1, h.2.2⟩
  rcases hr : mems_read_serial i1 (1) with ⟨r, bs, i2⟩
  have h2 : i2.locks = i1.locks ∧ i2.unlocks = i1.unlocks := by
    have h := read_serial_lock_fields i1 (1)
    rw [hr] at h
    exact ⟨h.2.1, h.2.2⟩
  cases ok <;>
    simp [mems_heartbeat, mems_lock, hs, hr, mems_unlock, h1.1, h1.2, h2.1, h2.2]

/-- C7: every guarded operation (mems_read, mems_read_raw,
mems_read_iac_position, the actuator controls, mems_clear_faults,
mems_heartbeat) acquires the mutex exactly once and releases it exactly
once on every exit path, so it always returns with the lock free. -/
theorem guarded_ops_release_lock (info : MemsInfo) (data : MemsData) (pos : Nat) (b : Bool) :
    ((mems_read info data).2.2.locked = false ∧
     (mems_read info data).2.2.locks = info.locks + 1 ∧
     (mems_read info data).2.2.unlocks = info.unlocks + 1) ∧
    ((mems_read_raw info).2.2.locked = false ∧
     (mems_read_raw info).2.2.locks = info.locks + 1 ∧
     (mems_read_raw info).2.2.unlocks = info.unlocks + 1) ∧
    ((mems_read_iac_position info pos).2.2.locked = false ∧
     (mems_read_iac_position info pos).2.2.locks = info.locks + 1 ∧
     (mems_read_iac_position info pos).2.2.unlocks = info.unlocks + 1) ∧
    ((mems_fuel_pump_control info b).2.locked = false ∧
     (mems_fuel_pump_control info b).2.locks = info.locks + 1 ∧
     (mems_fuel_pump_control info b).2.unlocks = info.unlocks + 1) ∧
    ((mems_ptc_relay_control info b).2.locked = false ∧
     (mems_ptc_relay_control info b).2.locks = info.locks + 1 ∧
     (mems_ptc_relay_control info b).2.unlocks = info.unlocks + 1) ∧
    ((mems_ac_relay_control info b).2.locked = false ∧
     (mems_ac_relay_control info b).2.locks = info.locks + 1 ∧
     (mems_ac_relay_control info b).2.unlocks = info.unlocks + 1) ∧
    ((mems_test_injectors info).2.locked = false ∧
     (mems_test_injectors info).2.locks = info.locks + 1 ∧
     (mems_test_injectors info).2.unlocks = info.unlocks + 1) ∧
    ((mems_test_coil info).2.locked = false ∧
     (mems_test_coil info).2.locks = info.locks + 1 ∧
     (mems_test_coil info).2.unlocks = info.unlocks + 1) ∧
    ((mems_move_idle_bypass_motor info b pos).2.2.locked = false ∧
     (mems_move_idle_bypass_motor info b pos).2.2.locks = info.locks + 1 ∧
     (mems_move_idle_bypass_motor info b pos).2.2.unlocks = info.unlocks + 1) ∧
    ((mems_clear_faults info).2.locked = false ∧
     (mems_clear_faults info).2.locks = info.locks + 1 ∧
     (mems_clear_faults info).2.unlocks = info.unlocks + 1) ∧
    ((mems_heartbeat info).2.locked = false ∧
     (mems_heartbeat info).2.locks = info.locks + 1 ∧
     (mems_heartbeat info).2.unlocks = info.unlocks + 1) :=
  ⟨read_lock_balanced info data, read_raw_lock_balanced info,
   iac_position_lock_balanced info pos, fuel_pump_lock_balanced info b,
   ptc_relay_lock_balanced info b, ac_relay_lock_balanced info b,
   injectors_lock_balanced info, coil_lock_balanced info,
   motor_lock_balanced info b pos, clear_faults_lock_balanced info,
   heartbeat_lock_balanced info⟩

end Librosco
